import Mathlib

/-!
Shallow embedding of `baldr/api.py` (the `baldr` resource API dispatch layer):
content-type negotiation, the view wrapper with its exception-to-response
mapping, method checking, the dispatch state machine, and the capability
mixins, together with theorems about their behaviour.

Python values are modelled as follows: strings stay `String`, Python `None`
becomes `Option.none`, Python lists become `List`, raised exceptions become
the `.error` side of `Except Exc`, and a dynamic attribute lookup
(`getattr`) becomes a function into `Option`.
-/

set_option autoImplicit false

/-- The `meta` payload of an error resource: either a mapping keyed by field
name (a validation failure message dict) or free text (the stack trace that
`handle_500` attaches in debug mode). -/
inductive MetaVal where
  | dict (entries : List (String × String))
  | text (s : String)
  deriving Repr, DecidableEq

/-- Modelled from the spec: the `Error` resource of `baldr.resources` (that
file is not under src/). Per the spec the ErrorResource is
`(status, code, message, optional detail, optional meta)`, matching the
positional construction sites `Error(status, code, message[, detail[, meta]])`
in `api.py`. -/
structure Error where
  status : Nat
  code : Nat
  message : String
  detail : Option String := none
  meta : Option MetaVal := none
  deriving Repr, DecidableEq

/-- A resource value as handled by the view wrapper: either an `Error`
resource or an ordinary (opaque) resource payload. -/
inductive Res where
  | err (e : Error)
  | obj (payload : String)
  deriving Repr, DecidableEq

/-- A codec: a content-type identifier plus encode (`dumps`) and decode
(`loads`) functions, as used by `api.py` (`codec.dumps`, `codec.CONTENT_TYPE`,
`request.codec.loads`). -/
structure Codec where
  CONTENT_TYPE : String
  dumps : Res → String
  loads : String → Res

/-- The Django request, restricted to the fields `api.py` reads or writes:
`request.method`, `request.data`, the `request.codec` slot assigned by the
view wrapper, and the `request.type` slot assigned by `dispatch`. -/
structure Request where
  method : String
  data : String := ""
  codec : Option Codec := none
  type : Option String := none

/-- A Django `HttpResponse` as built by `api.py`: `content = none` models a
response constructed with no content argument (empty body); `contentType`
models the `content_type` keyword; `headers` the header assignments
`response[key] = value`. -/
structure HttpResponse where
  content : Option String := none
  contentType : Option String := none
  status : Nat
  headers : List (String × String) := []

/-- The value a handler (callback) returns to the view wrapper. Python
distinguishes a two-element tuple from any other value
(`isinstance(result, tuple) and len(result) == 2`); `single none` is a
Python `None` return. -/
inductive PyResult where
  | pair (resource : Option Res) (status : Nat)
  | single (resource : Option Res)
  deriving Repr, DecidableEq

/-- The exceptions caught by `wrap_view`. `other` stands for any further
`Exception`, carrying its string form and (for debug mode) its traceback. -/
inductive Exc where
  | http404 (msg : String)
  | immediateHttpResponse (resource : Res) (status : Nat)
      (headers : Option (List (String × String)))
  | validationError (msg : String) (messageDict : Option (List (String × String)))
  | permissionDenied (msg : String)
  | notImplementedError
  | other (msg : String) (theTrace : String)
  deriving Repr, DecidableEq

/-- Modelled from the spec: `baldr.exceptions.ImmediateErrorHttpResponse`
(that file is not under src/). Per the spec the immediate-response signal
carries a custom resource, a status and custom headers; the error variant is
constructed from `(status, code, message, headers=...)` at its only call
site in `method_check`, so its resource is the corresponding `Error`. -/
def ImmediateErrorHttpResponse (status code : Nat) (message : String)
    (headers : Option (List (String × String))) : Exc :=
  .immediateHttpResponse (.err { status := status, code := code, message := message })
    status headers

/-- Keyword arguments a URL route captures and `dispatch` forwards. -/
abbrev Kwargs := List (String × String)

/-- `ResourceApiBase.resolve_content_type`: try each resolver in order,
returning the first truthy content type (Python `if content_type:` treats
the empty string as false); falling off the loop returns `None`. -/
def resolve_content_type (resolvers : List (Request → Option String))
    (req : Request) : Option String :=
  match resolvers with
  | [] => none
  | r :: rest =>
    match r req with
    | some ct => if ct = "" then resolve_content_type rest req else some ct
    | none => resolve_content_type rest req

/-- The dictionary lookup `self.registered_codecs[content_type]` in
`wrap_view`: `none` models the `KeyError` path (also taken when the resolved
content type itself is `None`). -/
def codecLookup (registered_codecs : List (String × Codec))
    (content_type : Option String) : Option Codec :=
  match content_type with
  | none => none
  | some ct => (registered_codecs.find? (fun p => p.1 == ct)).map (fun p => p.2)

/-- `ResourceApiBase.handle_500`: the unknown-error resource, with exception
string and traceback attached only when `settings.DEBUG` is set. -/
def handle_500 (debug : Bool) (excMsg : String) (theTrace : String) : Error :=
  if debug then
    { status := 500, code := 50000,
      message := "An unknown error has occurred, the developers have been notified.",
      detail := some excMsg, meta := some (.text theTrace) }
  else
    { status := 500, code := 50000,
      message := "An unknown error has occurred, the developers have been notified." }

/-- The response-building tail of the view wrapper: if the resource is
`None` return a bare `HttpResponse(status=status)` (empty body, no content
type), otherwise encode the resource with the negotiated codec. -/
def encodeResponse (codec : Codec) (resource : Option Res) (status : Nat) :
    HttpResponse :=
  match resource with
  | none => { status := status }
  | some r =>
    { content := some (codec.dumps r), contentType := some codec.CONTENT_TYPE,
      status := status }

/-- The `try`/`except` part of the wrapper in `ResourceApiBase.wrap_view`,
once a codec has been established: translate each caught exception into an
`Error` resource per the mapping table (the immediate-response signal is
returned directly with its custom headers), shape a successful result into
`(resource, status)` — a two-element tuple is used as is, any other value is
the resource with status 200, or 204 when it is `None` — and build the
response. -/
def wrapResult (codec : Codec) (debug : Bool)
    (outcome : Except Exc PyResult) : HttpResponse :=
  match outcome with
  | .error (.http404 msg) =>
    encodeResponse codec (some (.err { status := 404, code := 40400, message := msg })) 404
  | .error (.immediateHttpResponse resource status headers) =>
    { content := some (codec.dumps resource),
      contentType := some codec.CONTENT_TYPE, status := status,
      headers := headers.getD [] }
  | .error (.validationError msg messageDict) =>
    match messageDict with
    | some d =>
      encodeResponse codec
        (some (.err { status := 400, code := 40000,
                      message := "Fields failed validation.",
                      meta := some (.dict d) })) 400
    | none =>
      encodeResponse codec
        (some (.err { status := 400, code := 40000, message := msg })) 400
  | .error (.permissionDenied msg) =>
    encodeResponse codec
      (some (.err { status := 403, code := 40300, message := "Permission denied",
                    detail := some msg })) 403
  | .error .notImplementedError =>
    encodeResponse codec
      (some (.err { status := 501, code := 50100,
                    message := "This method has not been implemented." })) 501
  | .error (.other msg theTrace) =>
    let resource := handle_500 debug msg theTrace
    encodeResponse codec (some (.err resource)) resource.status
  | .ok result =>
    match result with
    | .pair resource status => encodeResponse codec resource status
    | .single resource =>
      encodeResponse codec resource (if resource.isNone then 204 else 200)

/-- The `wrapper` closure returned by `ResourceApiBase.wrap_view`: resolve a
content type, look up the codec (406 plain response on failure), store the
codec on the request, invoke the callback, and hand its outcome to
`wrapResult`. The callback argument stands for `getattr(self, view)`. -/
def wrap_view (resolvers : List (Request → Option String))
    (registered_codecs : List (String × Codec)) (debug : Bool)
    (callback : Request → Kwargs → Except Exc PyResult)
    (req : Request) (kwargs : Kwargs) : HttpResponse :=
  let content_type := resolve_content_type resolvers req
  match codecLookup registered_codecs content_type with
  | none =>
    { content := some "Content cannot be returned in the format requested.",
      status := 406 }
  | some codec =>
    wrapResult codec debug (callback { req with codec := some codec } kwargs)

/-- Python `str.lower`, character by character. -/
def pyLower (s : String) : String := ⟨s.data.map Char.toLower⟩

/-- Python `str.upper`, character by character. -/
def pyUpper (s : String) : String := ⟨s.data.map Char.toUpper⟩

/-- `ResourceApiBase.method_check`: lower-case the verb; `allowed = none`
models a Python `None` allowed list and raises `Http404`; a verb absent from
the list raises the 405 immediate error with an upper-cased, comma-joined
`Allow` header. -/
def method_check (api_name : String) (method : String)
    (allowed : Option (List String)) : Except Exc String :=
  let request_method := pyLower method
  match allowed with
  | none => .error (.http404 ("`" ++ api_name ++ "` not found."))
  | some l =>
    if request_method ∈ l then .ok request_method
    else
      .error (ImmediateErrorHttpResponse 405 40500 "Method not allowed"
        (some [("Allow", String.intercalate "," (l.map pyUpper))]))

/-- The value of a dynamic attribute probed with a default, as in
`getattr(self, name, [])`: the attribute can be missing, can hold Python
`None`, or can hold a verb list. -/
inductive AttrVal where
  | missing
  | pynone
  | list (l : List String)
  deriving Repr, DecidableEq

/-- One resource API object, restricted to what `dispatch` consults:
`api_name`, the dynamic `X_allowed_methods` attributes, the dynamic
`{verb}_{kind}` handler attributes, `handle_authorisation`, and the
optional `pre_dispatch` / `post_dispatch` hooks (whose presence Python
probes with `hasattr`). -/
structure Api where
  api_name : String
  allowedMethodsAttr : String → AttrVal
  handlers : String → Option (Request → Kwargs → Except Exc PyResult)
  auth : Request → Except Exc Unit
  preDispatch : Option (Request → Kwargs → Option Kwargs)
  postDispatch : Option (Request → PyResult → PyResult)

/-- `ResourceApiBase.dispatch`: read `{kind}_allowed_methods` with default
`[]`, run the method check, record `request.type`, run authorisation, look
up the handler `{verb}_{kind}` (raising `NotImplementedError` when absent),
let a defined `pre_dispatch` hook replace the keyword arguments when it
returns a non-`None` value, invoke the handler, and pass the result through
a defined `post_dispatch` hook. -/
def dispatch (api : Api) (req : Request) (request_type : String)
    (kwargs : Kwargs) : Except Exc PyResult :=
  let allowed_methods : Option (List String) :=
    match api.allowedMethodsAttr request_type with
    | .missing => some []
    | .pynone => none
    | .list l => some l
  match method_check api.api_name req.method allowed_methods with
  | .error e => .error e
  | .ok request_method =>
    let req := { req with type := some request_type }
    match api.auth req with
    | .error e => .error e
    | .ok () =>
      match api.handlers (request_method ++ "_" ++ request_type) with
      | none => .error .notImplementedError
      | some method =>
        let kwargs :=
          match api.preDispatch with
          | none => kwargs
          | some hook => (hook req kwargs).getD kwargs
        match method req kwargs with
        | .error e => .error e
        | .ok result =>
          match api.postDispatch with
          | none => .ok result
          | some post => .ok (post req result)

/-- `ResourceApi.dispatch_list`. -/
def dispatch_list (api : Api) (req : Request) (kwargs : Kwargs) :
    Except Exc PyResult :=
  dispatch api req "list" kwargs

/-- `ResourceApi.dispatch_detail`. -/
def dispatch_detail (api : Api) (req : Request) (kwargs : Kwargs) :
    Except Exc PyResult :=
  dispatch api req "detail" kwargs

/-! ### Class-level allowed-method lists

`ResourceApi` declares `list_allowed_methods = ['get']` and
`detail_allowed_methods = ['get']` as class attributes. The mixin
initialisers run `self.X_allowed_methods.append(verb)`: instances never
shadow the attribute, so the append mutates the lists stored on the class,
shared by every instance. We model that shared class state explicitly and
each `__init__` as a transition on it. -/

/-- The class-level state holding the two shared verb lists. -/
structure ClassState where
  list_allowed_methods : List String
  detail_allowed_methods : List String
  deriving Repr, DecidableEq

/-- The class attributes as declared on `ResourceApi`. -/
def ResourceApi.classState : ClassState :=
  { list_allowed_methods := ["get"], detail_allowed_methods := ["get"] }

/-- `CreateMixin.__init__`: appends `post` to the shared
`list_allowed_methods`. -/
def CreateMixin.init (s : ClassState) : ClassState :=
  { s with list_allowed_methods := s.list_allowed_methods ++ ["post"] }

/-- `UpdateMixin.__init__`: appends `post` (and only `post`) to the shared
`detail_allowed_methods`. -/
def UpdateMixin.init (s : ClassState) : ClassState :=
  { s with detail_allowed_methods := s.detail_allowed_methods ++ ["post"] }

/-- `DeleteMixin.__init__`: appends `delete` to the shared
`detail_allowed_methods`. -/
def DeleteMixin.init (s : ClassState) : ClassState :=
  { s with detail_allowed_methods := s.detail_allowed_methods ++ ["delete"] }

/-! ### Mixin handlers -/

/-- `CreateMixin.post_list`: decode the body, call `create_resource` with
`is_complete = False`, and return `None` on both paths: the explicit
`return` when the result is `None`, and the implicit `return None` at the
end of the function otherwise. `loads` stands for `request.codec.loads`
bound to the declared resource. -/
def CreateMixin.post_list (loads : String → Res)
    (create_resource : Request → Res → Bool → Except Exc (Option Res))
    (req : Request) : Except Exc PyResult :=
  let resource := loads req.data
  match create_resource req resource false with
  | .error e => .error e
  | .ok result =>
    match result with
    | none => .ok (.single none)
    | some _ => .ok (.single none)

/-- `CreateMixin.put_list`: decode the body and return whatever
`create_resource` returns, with `is_complete = True`. -/
def CreateMixin.put_list (loads : String → Res)
    (create_resource : Request → Res → Bool → Except Exc (Option Res))
    (req : Request) : Except Exc PyResult :=
  let resource := loads req.data
  match create_resource req resource true with
  | .error e => .error e
  | .ok result => .ok (.single result)

/-- `UpdateMixin.post_list` (note the `_list` name in the source, although
it takes a `resource_id`): decode the body and delegate to
`update_resource` with `is_complete = False`. A missing `resource_id`
keyword argument would be a Python `TypeError`, modelled as a generic
exception. -/
def UpdateMixin.post_list (loads : String → Res)
    (update_resource : Request → String → Res → Bool → Except Exc PyResult)
    (req : Request) (kwargs : Kwargs) : Except Exc PyResult :=
  match kwargs.lookup "resource_id" with
  | none => .error (.other "TypeError" "")
  | some resource_id =>
    let resource := loads req.data
    update_resource req resource_id resource false

/-- `UpdateMixin.put_list` (same `_list` naming): decode the body and
delegate to `update_resource` with `is_complete = True`. -/
def UpdateMixin.put_list (loads : String → Res)
    (update_resource : Request → String → Res → Bool → Except Exc PyResult)
    (req : Request) (kwargs : Kwargs) : Except Exc PyResult :=
  match kwargs.lookup "resource_id" with
  | none => .error (.other "TypeError" "")
  | some resource_id =>
    let resource := loads req.data
    update_resource req resource_id resource true

/-! ### Concrete fixtures used in witnesses and counterexamples -/

/-- A concrete JSON-style codec. -/
def jsonCodec : Codec :=
  { CONTENT_TYPE := "application/json",
    dumps := fun r =>
      match r with
      | .err e => "error " ++ toString e.status ++ " " ++ toString e.code ++ " " ++ e.message
      | .obj s => "obj " ++ s,
    loads := fun s => .obj s }

/-- A resolver chain that always proposes the JSON content type. -/
def jsonResolvers : List (Request → Option String) :=
  [fun _ => some "application/json"]

/-- A codec registry holding only the JSON codec. -/
def jsonCodecs : List (String × Codec) :=
  [("application/json", jsonCodec)]

/-- A GET request. -/
def getReq : Request := { method := "GET" }

/-- A POST request. -/
def postReq : Request := { method := "POST" }

/-- An API object with no allowed-methods attribute for any kind, no
handler attributes, and the base-class hooks (no `pre_dispatch` or
`post_dispatch`, `handle_authorisation` a no-op). -/
def bareApi : Api :=
  { api_name := "widgets",
    allowedMethodsAttr := fun _ => .missing,
    handlers := fun _ => none,
    auth := fun _ => .ok (),
    preDispatch := none,
    postDispatch := none }

/-- An API object whose every `X_allowed_methods` attribute is Python
`None`. -/
def noneApi : Api :=
  { bareApi with allowedMethodsAttr := fun _ => .pynone }

/-- An API object allowing only `get` on the detail kind. -/
def readOnlyApi : Api :=
  { bareApi with
    allowedMethodsAttr := fun kind =>
      if kind = "detail" then .list ["get"] else .missing }

/-! ### C1: missing allowed-methods entry -/

/-- C1, counterexample: the claim states that a request whose kind has no
allowed-methods entry at all fails as not-found with status 404, never 405.
On an API whose `detail_allowed_methods` attribute is missing, a GET to the
detail kind produces a response with status 405, not 404: `dispatch` reads
the attribute with `getattr(..., [])`, so a missing entry becomes the empty
list and fails the membership test, not the `None` test. -/
theorem C1_counterexample :
    (wrap_view jsonResolvers jsonCodecs false
      (fun r kw => dispatch bareApi r "detail" kw) getReq []).status = 405 ∧
    (wrap_view jsonResolvers jsonCodecs false
      (fun r kw => dispatch bareApi r "detail" kw) getReq []).status ≠ 404 := by
  constructor
  · rfl
  · decide

/-- C1, amended: a request whose kind has no allowed-methods entry at all
fails with status 405 (method not allowed) and an empty `Allow` header,
regardless of the HTTP verb attempted; the not-found (404) failure arises
exactly when the allowed-methods attribute is present and holds `None`. -/
theorem C1_amended (api : Api) (req : Request) (kind : String) (kwargs : Kwargs) :
    (api.allowedMethodsAttr kind = .missing →
      dispatch api req kind kwargs =
        .error (ImmediateErrorHttpResponse 405 40500 "Method not allowed"
          (some [("Allow", "")]))) ∧
    (api.allowedMethodsAttr kind = .pynone →
      dispatch api req kind kwargs =
        .error (.http404 ("`" ++ api.api_name ++ "` not found."))) := by
  constructor
  · intro h
    simp [dispatch, h, method_check, String.intercalate]
  · intro h
    simp [dispatch, h, method_check]

/-- C1, witness for the amended theorem at concrete inputs: a missing entry
yields the 405 immediate error with an empty `Allow` header, and an entry
holding `None` yields `Http404`. -/
theorem C1_amended_witness :
    dispatch bareApi getReq "detail" [] =
      .error (ImmediateErrorHttpResponse 405 40500 "Method not allowed"
        (some [("Allow", "")])) ∧
    dispatch noneApi getReq "detail" [] =
      .error (.http404 ("`" ++ noneApi.api_name ++ "` not found.")) :=
  ⟨(C1_amended bareApi getReq "detail" []).1 rfl,
   (C1_amended noneApi getReq "detail" []).2 rfl⟩

/-! ### C2: every exception becomes an encoded response -/

/-- C2: once a codec has been established, every exception raised by the
callback is converted by the view wrapper into a codec-encoded response:
the response body is the codec encoding of some resource and the content
type is the codec identifier, so no exception propagates out of the
wrapped view. -/
theorem C2_no_exception_escapes
    (resolvers : List (Request → Option String))
    (registered_codecs : List (String × Codec)) (debug : Bool)
    (callback : Request → Kwargs → Except Exc PyResult)
    (req : Request) (kwargs : Kwargs) (codec : Codec) (exc : Exc)
    (hc : codecLookup registered_codecs (resolve_content_type resolvers req) =
      some codec)
    (he : callback { req with codec := some codec } kwargs = .error exc) :
    ∃ r : Res,
      (wrap_view resolvers registered_codecs debug callback req kwargs).content =
        some (codec.dumps r) ∧
      (wrap_view resolvers registered_codecs debug callback req kwargs).contentType =
        some codec.CONTENT_TYPE := by
  have hw : wrap_view resolvers registered_codecs debug callback req kwargs =
      wrapResult codec debug (.error exc) := by
    simp [wrap_view, hc, he]
  rw [hw]
  cases exc with
  | http404 msg => exact ⟨_, rfl, rfl⟩
  | immediateHttpResponse resource status headers => exact ⟨resource, rfl, rfl⟩
  | validationError msg messageDict =>
    cases messageDict with
    | none => exact ⟨_, rfl, rfl⟩
    | some d => exact ⟨_, rfl, rfl⟩
  | permissionDenied msg => exact ⟨_, rfl, rfl⟩
  | notImplementedError => exact ⟨_, rfl, rfl⟩
  | other msg theTrace => exact ⟨.err (handle_500 debug msg theTrace), rfl, rfl⟩

/-- C2, witness: a callback raising `NotImplementedError` under the JSON
codec yields an encoded response. -/
theorem C2_witness :
    ∃ r : Res,
      (wrap_view jsonResolvers jsonCodecs false
        (fun _ _ => .error .notImplementedError) getReq []).content =
        some (jsonCodec.dumps r) ∧
      (wrap_view jsonResolvers jsonCodecs false
        (fun _ _ => .error .notImplementedError) getReq []).contentType =
        some jsonCodec.CONTENT_TYPE :=
  C2_no_exception_escapes jsonResolvers jsonCodecs false
    (fun _ _ => .error .notImplementedError) getReq [] jsonCodec
    .notImplementedError rfl rfl

/-! ### C4: result shaping -/

/-- C4: once a codec has been established, a callback returning a
two-element `(resource, status)` pair yields exactly that resource and
status; a bare non-`None` resource yields status 200; a `None` result
yields status 204 with an empty body; and a `(None, status)` pair yields an
empty, non-encoded body with that status. -/
theorem C4_result_shaping
    (resolvers : List (Request → Option String))
    (registered_codecs : List (String × Codec)) (debug : Bool)
    (callback : Request → Kwargs → Except Exc PyResult)
    (req : Request) (kwargs : Kwargs) (codec : Codec)
    (hc : codecLookup registered_codecs (resolve_content_type resolvers req) =
      some codec) :
    (∀ (r : Res) (s : Nat),
      callback { req with codec := some codec } kwargs = .ok (.pair (some r) s) →
      wrap_view resolvers registered_codecs debug callback req kwargs =
        { content := some (codec.dumps r), contentType := some codec.CONTENT_TYPE,
          status := s }) ∧
    (∀ r : Res,
      callback { req with codec := some codec } kwargs = .ok (.single (some r)) →
      wrap_view resolvers registered_codecs debug callback req kwargs =
        { content := some (codec.dumps r), contentType := some codec.CONTENT_TYPE,
          status := 200 }) ∧
    (callback { req with codec := some codec } kwargs = .ok (.single none) →
      wrap_view resolvers registered_codecs debug callback req kwargs =
        { status := 204 }) ∧
    (∀ s : Nat,
      callback { req with codec := some codec } kwargs = .ok (.pair none s) →
      wrap_view resolvers registered_codecs debug callback req kwargs =
        { status := s }) := by
  refine ⟨?_, ?_, ?_, ?_⟩
  · intro r s he
    simp [wrap_view, hc, he, wrapResult, encodeResponse]
  · intro r he
    simp [wrap_view, hc, he, wrapResult, encodeResponse]
  · intro he
    simp [wrap_view, hc, he, wrapResult, encodeResponse]
  · intro s he
    simp [wrap_view, hc, he, wrapResult, encodeResponse]

/-- C4, witness: a callback returning the pair `(resource, 201)` yields
that resource encoded with status 201, and one returning `None` yields an
empty 204 response. -/
theorem C4_witness :
    wrap_view jsonResolvers jsonCodecs false
      (fun _ _ => .ok (.pair (some (.obj "x")) 201)) getReq [] =
      { content := some (jsonCodec.dumps (.obj "x")),
        contentType := some jsonCodec.CONTENT_TYPE, status := 201 } ∧
    wrap_view jsonResolvers jsonCodecs false
      (fun _ _ => .ok (.single none)) getReq [] = { status := 204 } :=
  ⟨(C4_result_shaping jsonResolvers jsonCodecs false
      (fun _ _ => .ok (.pair (some (.obj "x")) 201)) getReq [] jsonCodec rfl).1
      (.obj "x") 201 rfl,
   (C4_result_shaping jsonResolvers jsonCodecs false
      (fun _ _ => .ok (.single none)) getReq [] jsonCodec rfl).2.2.1 rfl⟩

/-! ### C5: method not allowed -/

/-- C5: once a codec has been established, a request whose lower-cased verb
is absent from the (non-empty) allowed-methods list of its kind yields a
405 response whose `Allow` header is exactly the allowed verbs upper-cased
and comma-joined, independent of which verb was attempted. -/
theorem C5_method_not_allowed
    (resolvers : List (Request → Option String))
    (registered_codecs : List (String × Codec)) (debug : Bool)
    (api : Api) (req : Request) (kind : String) (kwargs : Kwargs)
    (codec : Codec) (l : List String)
    (hc : codecLookup registered_codecs (resolve_content_type resolvers req) =
      some codec)
    (hl : api.allowedMethodsAttr kind = .list l)
    (hne : l ≠ [])
    (hm : pyLower req.method ∉ l) :
    wrap_view resolvers registered_codecs debug
      (fun r kw => dispatch api r kind kw) req kwargs =
      { content := some (codec.dumps
          (.err { status := 405, code := 40500, message := "Method not allowed" })),
        contentType := some codec.CONTENT_TYPE,
        status := 405,
        headers := [("Allow", String.intercalate "," (l.map pyUpper))] } := by
  simp [wrap_view, hc, dispatch, hl, method_check, hm, ImmediateErrorHttpResponse,
    wrapResult, encodeResponse]

/-- C5, witness: a POST to the detail kind of an API allowing only `get`
yields 405 with `Allow: GET`. -/
theorem C5_witness :
    wrap_view jsonResolvers jsonCodecs false
      (fun r kw => dispatch readOnlyApi r "detail" kw) postReq [] =
      { content := some (jsonCodec.dumps
          (.err { status := 405, code := 40500, message := "Method not allowed" })),
        contentType := some jsonCodec.CONTENT_TYPE,
        status := 405,
        headers := [("Allow", String.intercalate "," (["get"].map pyUpper))] } :=
  C5_method_not_allowed jsonResolvers jsonCodecs false readOnlyApi postReq
    "detail" [] jsonCodec ["get"] rfl rfl (by decide) (by decide)

/-! ### C6: handler not implemented -/

/-- C6: once a codec has been established, a request whose verb passes the
method check but for which the API object has no `{verb}_{kind}` attribute
yields a 501 response encoding the error with code 50100 and message
"This method has not been implemented." (`handle_authorisation` is the
base-class no-op). -/
theorem C6_not_implemented
    (resolvers : List (Request → Option String))
    (registered_codecs : List (String × Codec)) (debug : Bool)
    (api : Api) (req : Request) (kind : String) (kwargs : Kwargs)
    (codec : Codec) (l : List String)
    (hc : codecLookup registered_codecs (resolve_content_type resolvers req) =
      some codec)
    (hl : api.allowedMethodsAttr kind = .list l)
    (hm : pyLower req.method ∈ l)
    (ha : ∀ r, api.auth r = .ok ())
    (hh : api.handlers (pyLower req.method ++ "_" ++ kind) = none) :
    wrap_view resolvers registered_codecs debug
      (fun r kw => dispatch api r kind kw) req kwargs =
      { content := some (codec.dumps
          (.err { status := 501, code := 50100,
                  message := "This method has not been implemented." })),
        contentType := some codec.CONTENT_TYPE,
        status := 501 } := by
  simp [wrap_view, hc, dispatch, hl, method_check, hm, ha, hh,
    wrapResult, encodeResponse]

/-- C6, witness: a GET to the detail kind of an API that allows `get` but
defines no `get_detail` attribute yields the encoded 501 error. -/
theorem C6_witness :
    wrap_view jsonResolvers jsonCodecs false
      (fun r kw => dispatch readOnlyApi r "detail" kw) getReq [] =
      { content := some (jsonCodec.dumps
          (.err { status := 501, code := 50100,
                  message := "This method has not been implemented." })),
        contentType := some jsonCodec.CONTENT_TYPE,
        status := 501 } :=
  C6_not_implemented jsonResolvers jsonCodecs false readOnlyApi getReq
    "detail" [] jsonCodec ["get"] rfl rfl (by decide) (fun _ => rfl) rfl

/-! ### C7: the pre-dispatch hook may replace the keyword arguments -/

/-- C7: when a pre-dispatch hook is defined (and the earlier dispatch
stages pass, with no post-dispatch hook), a non-`None` hook return value
replaces the keyword arguments passed to the handler, and a `None` return
leaves the original keyword arguments unchanged. -/
theorem C7_pre_dispatch_override
    (api : Api) (req : Request) (kind : String) (kwargs : Kwargs)
    (hook : Request → Kwargs → Option Kwargs)
    (h : Request → Kwargs → Except Exc PyResult) (l : List String)
    (hl : api.allowedMethodsAttr kind = .list l)
    (hm : pyLower req.method ∈ l)
    (ha : ∀ r, api.auth r = .ok ())
    (hh : api.handlers (pyLower req.method ++ "_" ++ kind) = some h)
    (hp : api.preDispatch = some hook)
    (hpost : api.postDispatch = none) :
    (∀ newKwargs : Kwargs,
      hook { req with type := some kind } kwargs = some newKwargs →
      dispatch api req kind kwargs = h { req with type := some kind } newKwargs) ∧
    (hook { req with type := some kind } kwargs = none →
      dispatch api req kind kwargs = h { req with type := some kind } kwargs) := by
  constructor
  · intro newKwargs hr
    simp only [dispatch, hl, method_check, hm, if_pos, ha, hh, hp, hpost, hr,
      Option.getD_some]
    cases h { req with type := some kind } newKwargs <;> rfl
  · intro hr
    simp only [dispatch, hl, method_check, hm, if_pos, ha, hh, hp, hpost, hr,
      Option.getD_none]
    cases h { req with type := some kind } kwargs <;> rfl

/-- C7, witness: a hook returning a replacement keyword set makes the
handler see the replacement, and a hook returning `None` leaves the
original keyword set in place, on one concrete API. -/
theorem C7_witness :
    dispatch
      { bareApi with
        allowedMethodsAttr := fun _ => .list ["get"],
        handlers := fun _ => some (fun _ kw => .ok (.pair none kw.length)),
        preDispatch := some (fun _ kw => if kw = [] then some [("x", "1")] else none) }
      getReq "detail" [] =
      (fun (_ : Request) (kw : Kwargs) => (.ok (.pair none kw.length) : Except Exc PyResult))
        { getReq with type := some "detail" } [("x", "1")] ∧
    dispatch
      { bareApi with
        allowedMethodsAttr := fun _ => .list ["get"],
        handlers := fun _ => some (fun _ kw => .ok (.pair none kw.length)),
        preDispatch := some (fun _ kw => if kw = [] then some [("x", "1")] else none) }
      getReq "detail" [("a", "b")] =
      (fun (_ : Request) (kw : Kwargs) => (.ok (.pair none kw.length) : Except Exc PyResult))
        { getReq with type := some "detail" } [("a", "b")] :=
  ⟨(C7_pre_dispatch_override _ getReq "detail" []
      (fun _ kw => if kw = [] then some [("x", "1")] else none)
      (fun _ kw => .ok (.pair none kw.length)) ["get"]
      rfl (by decide) (fun _ => rfl) rfl rfl rfl).1 [("x", "1")] rfl,
   (C7_pre_dispatch_override _ getReq "detail" [("a", "b")]
      (fun _ kw => if kw = [] then some [("x", "1")] else none)
      (fun _ kw => .ok (.pair none kw.length)) ["get"]
      rfl (by decide) (fun _ => rfl) rfl rfl rfl).2 (by decide)⟩

/-! ### C8: validation failures -/

/-- C8: once a codec has been established, a validation failure carrying a
per-field message dict yields a 400 response encoding code 40000 with the
`meta` mapping keyed by field name, and a validation failure without a
message dict yields a 400 response encoding code 40000 with the stringified
exception as the message. -/
theorem C8_validation_mapping
    (resolvers : List (Request → Option String))
    (registered_codecs : List (String × Codec)) (debug : Bool)
    (callback : Request → Kwargs → Except Exc PyResult)
    (req : Request) (kwargs : Kwargs) (codec : Codec)
    (hc : codecLookup registered_codecs (resolve_content_type resolvers req) =
      some codec) :
    (∀ (msg : String) (d : List (String × String)),
      callback { req with codec := some codec } kwargs =
        .error (.validationError msg (some d)) →
      wrap_view resolvers registered_codecs debug callback req kwargs =
        { content := some (codec.dumps
            (.err { status := 400, code := 40000,
                    message := "Fields failed validation.",
                    meta := some (.dict d) })),
          contentType := some codec.CONTENT_TYPE, status := 400 }) ∧
    (∀ msg : String,
      callback { req with codec := some codec } kwargs =
        .error (.validationError msg none) →
      wrap_view resolvers registered_codecs debug callback req kwargs =
        { content := some (codec.dumps
            (.err { status := 400, code := 40000, message := msg })),
          contentType := some codec.CONTENT_TYPE, status := 400 }) := by
  constructor
  · intro msg d he
    simp [wrap_view, hc, he, wrapResult, encodeResponse]
  · intro msg he
    simp [wrap_view, hc, he, wrapResult, encodeResponse]

/-- C8, witness: a structured validation failure yields the 400 response
with its field map in `meta`, and an unstructured one yields the 400
response with the stringified exception as message. -/
theorem C8_witness :
    wrap_view jsonResolvers jsonCodecs false
      (fun _ _ => .error (.validationError "invalid"
        (some [("name", "This field is required.")]))) getReq [] =
      { content := some (jsonCodec.dumps
          (.err { status := 400, code := 40000,
                  message := "Fields failed validation.",
                  meta := some (.dict [("name", "This field is required.")]) })),
        contentType := some jsonCodec.CONTENT_TYPE, status := 400 } ∧
    wrap_view jsonResolvers jsonCodecs false
      (fun _ _ => .error (.validationError "invalid" none)) getReq [] =
      { content := some (jsonCodec.dumps
          (.err { status := 400, code := 40000, message := "invalid" })),
        contentType := some jsonCodec.CONTENT_TYPE, status := 400 } :=
  ⟨(C8_validation_mapping jsonResolvers jsonCodecs false
      (fun _ _ => .error (.validationError "invalid"
        (some [("name", "This field is required.")]))) getReq [] jsonCodec rfl).1
      "invalid" [("name", "This field is required.")] rfl,
   (C8_validation_mapping jsonResolvers jsonCodecs false
      (fun _ _ => .error (.validationError "invalid" none)) getReq [] jsonCodec rfl).2
      "invalid" rfl⟩

/-! ### C3: the Update mixin -/

/-- An API object as composed by a concrete class deriving from
`UpdateMixin` alone: after `__init__`, the shared class lists are
`list_allowed_methods = ["get"]` and `detail_allowed_methods = ["get", "post"]`,
and the handler attributes the mixin defines are `post_list` and `put_list`
(there is no `post_detail`, `put_detail` or `get_detail` attribute). -/
def updateApi (loads : String → Res)
    (update_resource : Request → String → Res → Bool → Except Exc PyResult) : Api :=
  { api_name := "widgets",
    allowedMethodsAttr := fun kind =>
      if kind = "list" then
        .list (UpdateMixin.init ResourceApi.classState).list_allowed_methods
      else if kind = "detail" then
        .list (UpdateMixin.init ResourceApi.classState).detail_allowed_methods
      else .missing,
    handlers := fun name =>
      if name = "post_list" then some (UpdateMixin.post_list loads update_resource)
      else if name = "put_list" then some (UpdateMixin.put_list loads update_resource)
      else none,
    auth := fun _ => .ok (),
    preDispatch := none,
    postDispatch := none }

/-- C3: evaluating the code at the failing input. On an API composing
`UpdateMixin`, a detail-kind dispatch of `POST` raises
`NotImplementedError` (the handler lookup computes `post_detail`, but the
mixin binds its handler as `post_list`), and a detail-kind dispatch of
`PUT` fails the method check with 405 (the initializer appends only `post`,
not `put`, to `detail_allowed_methods`) — `update_resource` is never
reached on either verb. -/
theorem C3_update_mixin_detail_eval :
    dispatch (updateApi (fun s => .obj s) (fun _ _ _ _ => .ok (.single none)))
      { method := "POST" } "detail" [("resource_id", "1")] =
      .error .notImplementedError ∧
    dispatch (updateApi (fun s => .obj s) (fun _ _ _ _ => .ok (.single none)))
      { method := "PUT" } "detail" [("resource_id", "1")] =
      .error (ImmediateErrorHttpResponse 405 40500 "Method not allowed"
        (some [("Allow", "GET,POST")])) := by
  constructor <;> rfl

/-! ### C9: the allowed-method lists are shared class state -/

/-- C9: the allowed-method lists are class-level objects shared by every
instance, so each construction of a `CreateMixin`, `UpdateMixin` or
`DeleteMixin` instance appends its verb to the shared class list: after `n`
constructions the verb occurs `n` times in the list. -/
theorem C9_shared_class_lists (n : Nat) :
    ((CreateMixin.init)^[n] ResourceApi.classState).list_allowed_methods.count "post" = n ∧
    ((UpdateMixin.init)^[n] ResourceApi.classState).detail_allowed_methods.count "post" = n ∧
    ((DeleteMixin.init)^[n] ResourceApi.classState).detail_allowed_methods.count "delete" = n := by
  induction n with
  | zero => refine ⟨?_, ?_, ?_⟩ <;> decide
  | succ k ih =>
    obtain ⟨h1, h2, h3⟩ := ih
    refine ⟨?_, ?_, ?_⟩ <;>
      simp [Function.iterate_succ_apply', CreateMixin.init, UpdateMixin.init,
        DeleteMixin.init, List.count_append, h1, h2, h3]

/-! ### C10: the Create mixin post handler -/

/-- An API object as composed by a concrete class deriving from
`CreateMixin` alone: after `__init__`, the shared class lists are
`list_allowed_methods = ["get", "post"]` and `detail_allowed_methods = ["get"]`,
and the mixin defines `post_list` and `put_list` handler attributes (which
take no keyword arguments). -/
def createApi (loads : String → Res)
    (create_resource : Request → Res → Bool → Except Exc (Option Res)) : Api :=
  { api_name := "widgets",
    allowedMethodsAttr := fun kind =>
      if kind = "list" then
        .list (CreateMixin.init ResourceApi.classState).list_allowed_methods
      else if kind = "detail" then
        .list (CreateMixin.init ResourceApi.classState).detail_allowed_methods
      else .missing,
    handlers := fun name =>
      if name = "post_list" then
        some (fun r _ => CreateMixin.post_list loads create_resource r)
      else if name = "put_list" then
        some (fun r _ => CreateMixin.put_list loads create_resource r)
      else none,
    auth := fun _ => .ok (),
    preDispatch := none,
    postDispatch := none }

/-- C10: `CreateMixin.post_list` returns `None` whenever `create_resource`
returns normally, whatever value it produced, so a POST to the list kind of
an API composing `CreateMixin` (which defines no dispatch hooks) yields a
204 response with an empty body. -/
theorem C10_create_post_always_204
    (resolvers : List (Request → Option String))
    (registered_codecs : List (String × Codec)) (debug : Bool)
    (loads : String → Res)
    (create_resource : Request → Res → Bool → Except Exc (Option Res))
    (req : Request) (kwargs : Kwargs) (codec : Codec) (v : Option Res)
    (hc : codecLookup registered_codecs (resolve_content_type resolvers req) =
      some codec)
    (hm : pyLower req.method = "post")
    (h : create_resource { req with codec := some codec, type := some "list" }
        (loads req.data) false = .ok v) :
    CreateMixin.post_list loads create_resource
      { req with codec := some codec, type := some "list" } = .ok (.single none) ∧
    wrap_view resolvers registered_codecs debug
      (fun r kw => dispatch (createApi loads create_resource) r "list" kw)
      req kwargs = { status := 204 } := by
  have hpost : CreateMixin.post_list loads create_resource
      { req with codec := some codec, type := some "list" } = .ok (.single none) := by
    simp only [CreateMixin.post_list, h]
    cases v <;> rfl
  refine ⟨hpost, ?_⟩
  simp [wrap_view, hc, dispatch, createApi, CreateMixin.init, ResourceApi.classState,
    method_check, hm, hpost, wrapResult, encodeResponse]

/-- C10, witness: with a `create_resource` that produces a non-`None`
resource, the POST create request still yields an empty 204 response. -/
theorem C10_witness :
    CreateMixin.post_list (fun s => .obj s) (fun _ _ _ => .ok (some (.obj "created")))
      { postReq with codec := some jsonCodec, type := some "list" } =
      .ok (.single none) ∧
    wrap_view jsonResolvers jsonCodecs false
      (fun r kw => dispatch
        (createApi (fun s => .obj s) (fun _ _ _ => .ok (some (.obj "created"))))
        r "list" kw)
      postReq [] = { status := 204 } :=
  C10_create_post_always_204 jsonResolvers jsonCodecs false (fun s => .obj s)
    (fun _ _ _ => .ok (some (.obj "created"))) postReq [] jsonCodec
    (some (.obj "created")) rfl (by decide) rfl
